import Mathlib

set_option maxRecDepth 100000

/-!
Verification of the `latte` document-generation service, centred on the
request handler `handleGenerate` (src/internal/server/generate-route.go).
The Go code is shallowly embedded: machine-word arithmetic is `Nat` with
explicit `% 2^32`, filesystem and remote-store effects are explicit state
passing over an environment record, and every fallible step returns an
`Except`/`Option` value.  Mutex operations, store fetches, template parses,
stat calls and symlink creations are recorded in an event trace so that
claims about locking discipline, fetch behaviour and re-parsing can be
stated and decided on concrete inputs.
-/

namespace Latte

/-- Raw bytes, as produced by Go `[]byte`. -/
abbrev Bytes := List Nat

/-- Truncation to a 32-bit machine word (`uint32` arithmetic). -/
def m32 (n : Nat) : Nat := n % 4294967296

/-- 32-bit left rotation, as used by the MD5 round function. -/
def rotl32 (x s : Nat) : Nat := m32 ((x <<< s) ||| (x >>> (32 - s)))

/-- Hex digit character for a nibble. -/
def hexDigit (n : Nat) : Char :=
  if n = 0 then '0' else if n = 1 then '1' else if n = 2 then '2'
  else if n = 3 then '3' else if n = 4 then '4' else if n = 5 then '5'
  else if n = 6 then '6' else if n = 7 then '7' else if n = 8 then '8'
  else if n = 9 then '9' else if n = 10 then 'a' else if n = 11 then 'b'
  else if n = 12 then 'c' else if n = 13 then 'd' else if n = 14 then 'e'
  else 'f'

/-- Lower-case hex encoding of one byte (embeds Go `hex.EncodeToString`, per byte). -/
def byteToHex (b : Nat) : String := String.mk [hexDigit (b / 16), hexDigit (b % 16)]

/-- Lower-case hex encoding of a byte sequence (embeds Go `hex.EncodeToString`). -/
def bytesToHex (bs : Bytes) : String := String.join (bs.map byteToHex)

/-- UTF-8 encoding of a single character. -/
def utf8Char (c : Char) : Bytes :=
  let n := c.toNat
  if n < 128 then [n]
  else if n < 2048 then [192 + n / 64, 128 + n % 64]
  else if n < 65536 then [224 + n / 4096, 128 + n / 64 % 64, 128 + n % 64]
  else [240 + n / 262144, 128 + n / 4096 % 64, 128 + n / 64 % 64, 128 + n % 64]

/-- UTF-8 byte sequence of a string (embeds Go `[]byte(s)` on a `string`). -/
def utf8Bytes (s : String) : Bytes :=
  s.data.foldr (fun c acc => utf8Char c ++ acc) []

/-- The 64 MD5 sine-derived round constants. -/
def md5K : List Nat :=
  [0xd76aa478, 0xe8c7b756, 0x242070db, 0xc1bdceee,
   0xf57c0faf, 0x4787c62a, 0xa8304613, 0xfd469501,
   0x698098d8, 0x8b44f7af, 0xffff5bb1, 0x895cd7be,
   0x6b901122, 0xfd987193, 0xa679438e, 0x49b40821,
   0xf61e2562, 0xc040b340, 0x265e5a51, 0xe9b6c7aa,
   0xd62f105d, 0x02441453, 0xd8a1e681, 0xe7d3fbc8,
   0x21e1cde6, 0xc33707d6, 0xf4d50d87, 0x455a14ed,
   0xa9e3e905, 0xfcefa3f8, 0x676f02d9, 0x8d2a4c8a,
   0xfffa3942, 0x8771f681, 0x6d9d6122, 0xfde5380c,
   0xa4beea44, 0x4bdecfa9, 0xf6bb4b60, 0xbebfbc70,
   0x289b7ec6, 0xeaa127fa, 0xd4ef3085, 0x04881d05,
   0xd9d4d039, 0xe6db99e5, 0x1fa27cf8, 0xc4ac5665,
   0xf4292244, 0x432aff97, 0xab9423a7, 0xfc93a039,
   0x655b59c3, 0x8f0ccc92, 0xffeff47d, 0x85845dd1,
   0x6fa87e4f, 0xfe2ce6e0, 0xa3014314, 0x4e0811a1,
   0xf7537e82, 0xbd3af235, 0x2ad7d2bb, 0xeb86d391]

/-- The 64 MD5 per-round shift amounts. -/
def md5S : List Nat :=
  [7, 12, 17, 22, 7, 12, 17, 22, 7, 12, 17, 22, 7, 12, 17, 22,
   5, 9, 14, 20, 5, 9, 14, 20, 5, 9, 14, 20, 5, 9, 14, 20,
   4, 11, 16, 23, 4, 11, 16, 23, 4, 11, 16, 23, 4, 11, 16, 23,
   6, 10, 15, 21, 6, 10, 15, 21, 6, 10, 15, 21, 6, 10, 15, 21]

/-- MD5 nonlinear mixing function selected by round index. -/
def md5F (i b c d : Nat) : Nat :=
  if i < 16 then (b &&& c) ||| ((b ^^^ 4294967295) &&& d)
  else if i < 32 then (d &&& b) ||| ((d ^^^ 4294967295) &&& c)
  else if i < 48 then b ^^^ c ^^^ d
  else c ^^^ (b ||| (d ^^^ 4294967295))

/-- MD5 message-word index selected by round index. -/
def md5G (i : Nat) : Nat :=
  if i < 16 then i
  else if i < 32 then (5 * i + 1) % 16
  else if i < 48 then (3 * i + 5) % 16
  else (7 * i) % 16

/-- Little-endian 32-bit word number `g` of a 64-byte chunk. -/
def md5Word (chunk : Bytes) (g : Nat) : Nat :=
  chunk.getD (4 * g) 0 + 256 * chunk.getD (4 * g + 1) 0 +
    65536 * chunk.getD (4 * g + 2) 0 + 16777216 * chunk.getD (4 * g + 3) 0

/-- One MD5 round on the state quadruple `(a, b, c, d)`. -/
def md5Round (chunk : Bytes) (st : Nat × Nat × Nat × Nat) (i : Nat) :
    Nat × Nat × Nat × Nat :=
  let a := st.1
  let b := st.2.1
  let c := st.2.2.1
  let d := st.2.2.2
  let f := m32 (md5F i b c d + a + md5K.getD i 0 + md5Word chunk (md5G i))
  (d, m32 (b + rotl32 f (md5S.getD i 0)), b, c)

/-- Process one 64-byte chunk, folding the 64 rounds and adding into the state. -/
def md5Chunk (st : Nat × Nat × Nat × Nat) (chunk : Bytes) : Nat × Nat × Nat × Nat :=
  let r := (List.range 64).foldl (md5Round chunk) st
  (m32 (st.1 + r.1), m32 (st.2.1 + r.2.1), m32 (st.2.2.1 + r.2.2.1),
   m32 (st.2.2.2 + r.2.2.2))

/-- MD5 padding: `0x80`, zeros to 56 mod 64, then the bit length in little endian. -/
def md5pad (msg : Bytes) : Bytes :=
  let len := msg.length
  let zeros := (120 - (len + 1) % 64) % 64
  msg ++ [128] ++ List.replicate zeros 0 ++
    (List.range 8).map (fun j => 8 * len % 18446744073709551616 / 256 ^ j % 256)

/-- Split a byte sequence into chunks of 64 bytes; the first argument is
recursion fuel, always instantiated with the length of the sequence. -/
def chunks64Go : Nat → Bytes → List Bytes
  | 0, _ => []
  | _, [] => []
  | fuel + 1, b :: bs => ((b :: bs).take 64) :: chunks64Go fuel ((b :: bs).drop 64)

/-- Split a byte sequence into chunks of 64 bytes. -/
def chunks64 (l : Bytes) : List Bytes := chunks64Go l.length l

/-- Little-endian byte serialization of a 32-bit word. -/
def wordLE (w : Nat) : Bytes := [w % 256, w / 256 % 256, w / 65536 % 256, w / 16777216 % 256]

/-- The 16-byte MD5 digest of a message (embeds Go `md5.Sum`). -/
def md5Digest (msg : Bytes) : Bytes :=
  let st := (chunks64 (md5pad msg)).foldl md5Chunk
    (0x67452301, 0xefcdab89, 0x98badcfe, 0x10325476)
  wordLE st.1 ++ wordLE st.2.1 ++ wordLE st.2.2.1 ++ wordLE st.2.2.2

/-- Hex-encoded MD5 digest, as the Go code computes `hex.EncodeToString(tHash[:])`. -/
def md5Hex (msg : Bytes) : String := bytesToHex (md5Digest msg)

/-- Value of one character of the standard base64 alphabet. -/
def b64Val (c : Char) : Option Nat :=
  if 65 ≤ c.toNat ∧ c.toNat ≤ 90 then some (c.toNat - 65)
  else if 97 ≤ c.toNat ∧ c.toNat ≤ 122 then some (c.toNat - 71)
  else if 48 ≤ c.toNat ∧ c.toNat ≤ 57 then some (c.toNat + 4)
  else if c = '+' then some 62
  else if c = '/' then some 63
  else none

/-- Decode base64 quadruples with mandatory trailing padding, as Go
`base64.StdEncoding` does; `=` is legal only at the end. -/
def b64Quads : List Char → Option Bytes
  | [] => some []
  | [a, b, '=', '='] => do
      let va ← b64Val a
      let vb ← b64Val b
      some [va * 4 + vb / 16]
  | [a, b, c, '='] => do
      let va ← b64Val a
      let vb ← b64Val b
      let vc ← b64Val c
      some [va * 4 + vb / 16, vb % 16 * 16 + vc / 4]
  | a :: b :: c :: d :: rest => do
      let va ← b64Val a
      let vb ← b64Val b
      let vc ← b64Val c
      let vd ← b64Val d
      let bytes ← b64Quads rest
      some ([va * 4 + vb / 16, vb % 16 * 16 + vc / 4, vc % 4 * 64 + vd] ++ bytes)
  | _ => none

/-- Embeds Go `base64.StdEncoding.DecodeString`: newlines are skipped, the
remainder must be full quadruples over the standard alphabet. -/
def base64Decode (s : String) : Option Bytes :=
  b64Quads (s.data.filter (fun c => c != '\n' && c != '\r'))

/-- Embeds `filepath.Join` for a base directory and a simple child name. -/
def joinPath (a b : String) : String := a ++ "/" ++ b

/-- The local filesystem, a finite map from path to file contents. -/
abbrev Disk := List (String × Bytes)

/-- Whether a path exists on disk. -/
def diskContains (d : Disk) (p : String) : Bool := (d.lookup p).isSome

/-- File contents at a path (embeds `ioutil.ReadFile` / `os.Open`). -/
def diskRead (d : Disk) (p : String) : Option Bytes := d.lookup p

/-- Create or truncate the file at a path (embeds `ioutil.WriteFile`). -/
def diskWrite (d : Disk) (p : String) (bs : Bytes) : Disk :=
  (p, bs) :: d.filter (fun e => e.fst != p)

/-- A template delimiter pair (embeds the `delimiters` struct). -/
structure Delims where
  left : String
  right : String
deriving DecidableEq, Repr

/-- A parsed `text/template` value: `template.New(name).Delims(l, r).Parse(body)`
succeeds deterministically on a given name, body and delimiter pair, so the
parsed value is modelled by exactly those inputs; whether the external parser
rejects a body is an environment parameter. -/
structure ParsedTemplate where
  name : String
  body : Bytes
  delims : Delims
deriving DecidableEq, Repr

/-- The two mutexes of the handler: the template-cache lock and the
resource-path-cache lock. -/
inductive Mu
  | tmpls
  | rscs
deriving DecidableEq, Repr

/-- Observable events of one request: mutex operations, `os.Stat` calls,
remote `Store` fetches, template parses and symlink creations. -/
inductive Ev
  | lock (m : Mu)
  | unlock (m : Mu)
  | stat (path : String)
  | fetch (id : String)
  | parse (key : String)
  | symlink (oldname newname : String)
deriving DecidableEq, Repr

/-- Response body forms: `http.Error`/`s.respond` text, the structured
`errorResponse` JSON body, or the produced PDF stream. -/
inductive RespBody
  | text (msg : String)
  | jsonErr (error : String) (data : String)
  | pdf (path : String)
deriving DecidableEq, Repr

/-- An HTTP response: status code and body. -/
structure Response where
  status : Nat
  body : RespBody
deriving DecidableEq, Repr

/-- Outcome of `s.db.Fetch`: a `*NotFoundError`, a payload, or another error
(the payload may in Go be `[]byte` or an `io.ReadCloser`; both deliver bytes
and are modelled as bytes). -/
inductive FetchResult
  | notFound
  | ok (data : Bytes)
  | err (msg : String)
deriving DecidableEq, Repr

/-- The decoded details mapping (`map[string]interface{}`); values are opaque
to the handler, modelled as strings. -/
abbrev Details := List (String × String)

/-- Result of `os.Stat`: the path exists, does not exist, or stat itself
failed with an error that is not a not-exist error. -/
inductive StatRes
  | found
  | notExist
  | errOther
deriving DecidableEq, Repr

/-- Whether `os.IsNotExist` holds of the (possibly nil) stat error. -/
def StatRes.isNotExist : StatRes → Bool
  | .notExist => true
  | _ => false

/-- The server environment: configuration plus the external collaborators
(filesystem faults, remote store, template parser, JSON decoder, compiler).
Stat of the empty path is a not-exist error regardless of the filesystem,
matching POSIX `stat("")`. -/
structure Env where
  rootDir : String
  tempDirName : String
  tempDirFails : Bool
  db : Option (String → FetchResult)
  parseFails : Bytes → Delims → Bool
  writeFails : String → Bool
  statErr : String → Bool
  symlinkFails : String → String → Bool
  jsonDetails : Bytes → Option Details
  compileRun : ParsedTemplate → Details → String → Except String String
  pdfOpenFails : Bool

/-- `os.Stat` over the modelled disk and environment. -/
def osStat (env : Env) (disk : Disk) (p : String) : StatRes :=
  if p = "" then .notExist
  else if env.statErr p then .errOther
  else if diskContains disk p then .found
  else .notExist

/-- A mutex-guarded LRU cache (embeds `hashicorp/golang-lru` as used here):
an entry list in most-recently-used-first order with a capacity bound;
`lru.New` rejects a non-positive capacity, so `1 ≤ cap` always holds. -/
structure Cache (α : Type) where
  entries : List (String × α)
  cap : Nat
deriving DecidableEq, Repr

/-- `Get`: look the key up and, on a hit, mark it most recently used. -/
def Cache.get {α : Type} (c : Cache α) (k : String) : Option α × Cache α :=
  match c.entries.lookup k with
  | none => (none, c)
  | some v => (some v, ⟨(k, v) :: c.entries.filter (fun e => e.fst != k), c.cap⟩)

/-- `Add`: insert or update the key at the most-recent position, evicting the
least recently used entry when the capacity is exceeded. -/
def Cache.add {α : Type} (c : Cache α) (k : String) (v : α) : Cache α :=
  ⟨((k, v) :: c.entries.filter (fun e => e.fst != k)).take c.cap, c.cap⟩

/-- Pure lookup, without the recency side effect (for stating invariants). -/
def Cache.find {α : Type} (c : Cache α) (k : String) : Option α :=
  c.entries.lookup k

/-- The inline-template cache key (embeds lines 105-108):
`hex.EncodeToString(md5.Sum([]byte(req.Template))[:]) + delims.Left + delims.Right`. -/
def cacheKey (content : Bytes) (d : Delims) : String :=
  md5Hex content ++ d.left ++ d.right

/-- The decoded JSON request body (the `request` struct). -/
structure ReqBody where
  template : String
  details : Details
  resources : List (String × String)
  delims : Option Delims

/-- Outcome of the JSON body decode at the handler boundary (`json.Decoder.Decode`):
`io.EOF` on an empty body, another decode error, or a decoded request. -/
inductive BodyDecode
  | eof
  | malformed (msg : String)
  | ok (rb : ReqBody)

/-- An incoming HTTP request: content type, decoded body and query parameters
`tmpl`, `rsc` (repeatable) and `dtls`; absent single-valued parameters are
the empty string, as `url.Values.Get` returns. -/
structure Req where
  contentTypeJson : Bool
  reqBody : BodyDecode
  qTmpl : String
  qRscs : List String
  qDtls : String

deriving instance DecidableEq for Except

/-- The default delimiter pair (line 80). -/
def defaultDelims : Delims := ⟨"#!", "!#"⟩

/-- Result of resolving the inline template (lines 103-135). -/
structure InlineOut where
  out : Except Response ParsedTemplate
  tc : Cache ParsedTemplate
  trace : List Ev

/-- Inline-template resolution (lines 103-135): compute the content key,
consult the template cache under its lock, otherwise base64-decode, parse
and insert; decode and parse failures answer 500. -/
def resolveInline (env : Env) (tc : Cache ParsedTemplate) (tmplField : String)
    (delims : Delims) : InlineOut :=
  let cid := cacheKey (utf8Bytes tmplField) delims
  let hit := (tc.get cid).fst
  let tc1 := (tc.get cid).snd
  match hit with
  | none =>
    match base64Decode tmplField with
    | none =>
      ⟨.error ⟨500, .text "illegal base64 data"⟩, tc1, [.lock .tmpls, .unlock .tmpls]⟩
    | some tBytes =>
      if env.parseFails tBytes delims then
        ⟨.error ⟨500, .text "template parse error"⟩, tc1, [.lock .tmpls, .unlock .tmpls]⟩
      else
        let t : ParsedTemplate := ⟨cid, tBytes, delims⟩
        ⟨.ok t, tc1.add cid t, [.lock .tmpls, .parse cid, .unlock .tmpls]⟩
  | some t => ⟨.ok t, tc1, [.lock .tmpls, .unlock .tmpls]⟩

/-- Result of by-identifier template resolution (lines 160-227). -/
structure ByIdOut where
  out : Except Response ParsedTemplate
  tc : Cache ParsedTemplate
  disk : Disk
  trace : List Ev

/-- Tail of the by-identifier path (lines 205-227): `tmplBytes` is still nil
at this point, so the file is read back from `tmplPath`, parsed, and the
parsed template inserted into the cache. -/
def readParseAdd (env : Env) (tc1 : Cache ParsedTemplate) (disk : Disk)
    (tmplID tmplPath : String) (delims : Delims) (tr : List Ev) : ByIdOut :=
  match diskRead disk tmplPath with
  | none => ⟨.error ⟨500, .text "read error"⟩, tc1, disk, tr ++ [.unlock .tmpls]⟩
  | some tBytes =>
    if env.parseFails tBytes delims then
      ⟨.error ⟨500, .text "template parse error"⟩, tc1, disk, tr ++ [.unlock .tmpls]⟩
    else
      let t : ParsedTemplate := ⟨tmplID, tBytes, delims⟩
      ⟨.ok t, tc1.add tmplID t, disk, tr ++ [.parse tmplID, .unlock .tmpls]⟩

/-- By-identifier template resolution (lines 160-227).  The delimiter pair is
appended to the caller-supplied identifier first (line 161), and that suffixed
string is what names the cache entry, the on-disk file and the Store key. -/
def resolveById (env : Env) (tc : Cache ParsedTemplate) (disk : Disk)
    (rawId : String) (delims : Delims) : ByIdOut :=
  let tmplID := rawId ++ delims.left ++ delims.right
  let hit := (tc.get tmplID).fst
  let tc1 := (tc.get tmplID).snd
  match hit with
  | some t => ⟨.ok t, tc1, disk, [.lock .tmpls, .unlock .tmpls]⟩
  | none =>
    let tmplPath := joinPath env.rootDir tmplID
    match osStat env disk tmplPath with
    | .notExist =>
      match env.db with
      | none =>
        ⟨.error ⟨400, .text ("template with id " ++ tmplID ++ " not found")⟩,
          tc1, disk, [.lock .tmpls, .stat tmplPath, .unlock .tmpls]⟩
      | some fetch =>
        match fetch tmplID with
        | .notFound =>
          ⟨.error ⟨500, .text ("template with id " ++ tmplID ++ " not found")⟩,
            tc1, disk, [.lock .tmpls, .stat tmplPath, .fetch tmplID, .unlock .tmpls]⟩
        | .err m =>
          ⟨.error ⟨500, .text m⟩, tc1, disk,
            [.lock .tmpls, .stat tmplPath, .fetch tmplID, .unlock .tmpls]⟩
        | .ok raw =>
          if env.writeFails tmplPath then
            ⟨.error ⟨500, .text "disk write error"⟩, tc1, disk,
              [.lock .tmpls, .stat tmplPath, .fetch tmplID, .unlock .tmpls]⟩
          else
            readParseAdd env tc1 (diskWrite disk tmplPath raw) tmplID tmplPath delims
              [.lock .tmpls, .stat tmplPath, .fetch tmplID]
    | .errOther =>
      ⟨.error ⟨500, .text "stat error"⟩, tc1, disk,
        [.lock .tmpls, .stat tmplPath, .unlock .tmpls]⟩
    | .found =>
      readParseAdd env tc1 disk tmplID tmplPath delims [.lock .tmpls, .stat tmplPath]

/-- Result of resolving one resource identifier (lines 237-282). -/
structure RscOut where
  out : Except Response String
  rc : Cache String
  disk : Disk
  trace : List Ev

/-- Symlink a resolved resource path into the workspace (lines 277-282). -/
def symlinkStep (env : Env) (rc : Cache String) (disk : Disk)
    (workDir rscID rscPath : String) (tr : List Ev) : RscOut :=
  if env.symlinkFails rscPath (joinPath workDir rscID) then
    ⟨.error ⟨500, .text "symlink error"⟩, rc, disk, tr⟩
  else
    ⟨.ok rscPath, rc, disk, tr ++ [.symlink rscPath (joinPath workDir rscID)]⟩

/-- One iteration of the resource loop (lines 237-282).  The candidate local
path `rscPath` is still the empty string when `os.Stat` tests it (line 241),
and on a disk-write failure line 267 releases the template cache's mutex
rather than the resource cache's; both are modelled exactly as written. -/
def resolveResource (env : Env) (rc : Cache String) (disk : Disk)
    (workDir rscID : String) : RscOut :=
  let hit := (rc.get rscID).fst
  let rc1 := (rc.get rscID).snd
  let rscPath0 := ""
  if (osStat env disk rscPath0).isNotExist || hit.isNone then
    match env.db with
    | none =>
      ⟨.error ⟨400, .text ("resource with id " ++ rscID ++ " not found")⟩,
        rc1, disk, [.lock .rscs, .stat rscPath0, .unlock .rscs]⟩
    | some fetch =>
      match fetch rscID with
      | .notFound =>
        ⟨.error ⟨500, .text ("resource with id " ++ rscID ++ " not found")⟩,
          rc1, disk, [.lock .rscs, .stat rscPath0, .fetch rscID, .unlock .rscs]⟩
      | .err m =>
        ⟨.error ⟨500, .text m⟩, rc1, disk,
          [.lock .rscs, .stat rscPath0, .fetch rscID, .unlock .rscs]⟩
      | .ok raw =>
        let rscPath := joinPath env.rootDir rscID
        if env.writeFails rscPath then
          ⟨.error ⟨500, .text "disk write error"⟩, rc1, disk,
            [.lock .rscs, .stat rscPath0, .fetch rscID, .unlock .tmpls]⟩
        else
          symlinkStep env (rc1.add rscID rscPath) (diskWrite disk rscPath raw)
            workDir rscID rscPath [.lock .rscs, .stat rscPath0, .fetch rscID, .unlock .rscs]
  else
    symlinkStep env rc1 disk workDir rscID (hit.getD "")
      [.lock .rscs, .stat rscPath0, .unlock .rscs]

/-- Result of the whole resource loop. -/
structure LoopOut where
  out : Except Response Unit
  rc : Cache String
  disk : Disk
  trace : List Ev

/-- The resource loop (lines 236-283), aborting at the first failing
identifier. -/
def resourcesLoop (env : Env) (workDir : String) :
    Cache String → Disk → List Ev → List String → LoopOut
  | rc, disk, tr, [] => ⟨.ok (), rc, disk, tr⟩
  | rc, disk, tr, rscID :: rest =>
    let r := resolveResource env rc disk workDir rscID
    match r.out with
    | .error e => ⟨.error e, r.rc, r.disk, tr ++ r.trace⟩
    | .ok _ => resourcesLoop env workDir r.rc r.disk (tr ++ r.trace) rest

/-- Write the body-supplied resource files into the workspace (lines 141-155). -/
def writeBodyResources (env : Env) (workDir : String) :
    Disk → List (String × String) → Except Response Disk
  | disk, [] => .ok disk
  | disk, (name, data) :: rest =>
    let fname := joinPath workDir name
    match base64Decode data with
    | none => .error ⟨500, .text "illegal base64 data"⟩
    | some bytes =>
      if env.writeFails fname then .error ⟨500, .text "file write error"⟩
      else writeBodyResources env workDir (diskWrite disk fname bytes) rest

/-- Open the details file from disk and decode it (lines 367-391). -/
def openDecode (env : Env) (disk : Disk) (dtlsPath : String) :
    Except Response Details :=
  match diskRead disk dtlsPath with
  | none => .error ⟨500, .jsonErr "error while opening json file" "read error"⟩
  | some bs =>
    match env.jsonDetails bs with
    | none => .error ⟨500, .jsonErr "error while decoding json" "json error"⟩
    | some dts => .ok dts

/-- Result of resolving the details payload (lines 285-392). -/
structure DtlsOut where
  out : Except Response Details
  disk : Disk
  trace : List Ev

/-- Details resolution by identifier (lines 285-392): disk, then the Store
(500 with a structured body on every failure, including not-found and the
unconfigured-Store case), persisting fetched bytes and re-reading the file
when the decoded mapping is still empty. -/
def resolveDetails (env : Env) (disk : Disk) (dtID : String) : DtlsOut :=
  let dtlsPath := joinPath env.rootDir dtID
  match osStat env disk dtlsPath with
  | .notExist =>
    match env.db with
    | none =>
      ⟨.error ⟨500, .jsonErr ("details json with id " ++ dtID ++ " not found") ""⟩,
        disk, [.stat dtlsPath]⟩
    | some fetch =>
      match fetch dtID with
      | .notFound =>
        ⟨.error ⟨500, .jsonErr ("details json with id " ++ dtID ++ " not found") ""⟩,
          disk, [.stat dtlsPath, .fetch dtID]⟩
      | .err m =>
        ⟨.error ⟨500, .jsonErr "error while getting json file info" m⟩,
          disk, [.stat dtlsPath, .fetch dtID]⟩
      | .ok raw =>
        if env.writeFails dtlsPath then
          ⟨.error ⟨500, .jsonErr "error while writing json file to disk" "disk write error"⟩,
            disk, [.stat dtlsPath, .fetch dtID]⟩
        else
          let disk1 := diskWrite disk dtlsPath raw
          match env.jsonDetails raw with
          | none =>
            ⟨.error ⟨500, .jsonErr "error while decoding json" "json error"⟩,
              disk1, [.stat dtlsPath, .fetch dtID]⟩
          | some dts =>
            if dts = [] then ⟨openDecode env disk1 dtlsPath, disk1, [.stat dtlsPath, .fetch dtID]⟩
            else ⟨.ok dts, disk1, [.stat dtlsPath, .fetch dtID]⟩
  | .errOther =>
    ⟨.error ⟨500, .jsonErr "error while getting json file info" "stat error"⟩,
      disk, [.stat dtlsPath]⟩
  | .found => ⟨openDecode env disk dtlsPath, disk, [.stat dtlsPath]⟩

/-- Result of the JSON-body phase (lines 82-156). -/
structure BodyOut where
  out : Except Response Unit
  delims : Delims
  jTmpl : Option ParsedTemplate
  details : Details
  tc : Cache ParsedTemplate
  disk : Disk
  trace : List Ev

/-- Inline template, details and body resources of a decoded JSON body
(lines 103-155), with the delimiter pair already validated. -/
def bodyPhaseTmpl (env : Env) (tc : Cache ParsedTemplate) (disk : Disk)
    (rb : ReqBody) (workDir : String) (delims : Delims) : BodyOut :=
  if rb.template ≠ "" then
    let r := resolveInline env tc rb.template delims
    match r.out with
    | .error e => ⟨.error e, delims, none, [], r.tc, disk, r.trace⟩
    | .ok t =>
      match writeBodyResources env workDir disk rb.resources with
      | .error e => ⟨.error e, delims, some t, rb.details, r.tc, disk, r.trace⟩
      | .ok disk1 => ⟨.ok (), delims, some t, rb.details, r.tc, disk1, r.trace⟩
  else
    match writeBodyResources env workDir disk rb.resources with
    | .error e => ⟨.error e, delims, none, rb.details, tc, disk, []⟩
    | .ok disk1 => ⟨.ok (), delims, none, rb.details, tc, disk1, []⟩

/-- The JSON-body phase (lines 82-156): decode outcome, delimiter validation
(both sides or neither, line 97), then inline template, details and body
resources. -/
def bodyPhase (env : Env) (tc : Cache ParsedTemplate) (disk : Disk)
    (req : Req) (workDir : String) : BodyOut :=
  if req.contentTypeJson then
    match req.reqBody with
    | .eof =>
      ⟨.error ⟨400, .text "request header Content-Type set to application/json; received empty body"⟩,
        defaultDelims, none, [], tc, disk, []⟩
    | .malformed m => ⟨.error ⟨500, .text m⟩, defaultDelims, none, [], tc, disk, []⟩
    | .ok rb =>
      match rb.delims with
      | some d =>
        if d.left = "" ∨ d.right = "" then
          ⟨.error ⟨400, .text "only received one delimiter; need none or both"⟩,
            defaultDelims, none, [], tc, disk, []⟩
        else bodyPhaseTmpl env tc disk rb workDir d
      | none => bodyPhaseTmpl env tc disk rb workDir defaultDelims
  else ⟨.ok (), defaultDelims, none, [], tc, disk, []⟩

/-- Final outcome of one request: the response, both caches, the disk, the
event trace and the workspace directories scheduled for deferred removal. -/
structure HFinal where
  resp : Response
  tc : Cache ParsedTemplate
  rc : Cache String
  disk : Disk
  trace : List Ev
  cleanup : List String

/-- Render-and-compile tail (lines 394-411): run the external compiler and
stream the PDF back, or answer 500 with the structured error body. -/
def compilePhase (env : Env) (tc : Cache ParsedTemplate) (rc : Cache String)
    (disk : Disk) (tr : List Ev) (t : ParsedTemplate) (dts : Details)
    (workDir : String) : HFinal :=
  match env.compileRun t dts workDir with
  | .error m => ⟨⟨500, .jsonErr m ""⟩, tc, rc, disk, tr, []⟩
  | .ok pdfPath =>
    if env.pdfOpenFails then ⟨⟨500, .jsonErr "encountered an error" ""⟩, tc, rc, disk, tr, []⟩
    else ⟨⟨200, .pdf (joinPath workDir pdfPath)⟩, tc, rc, disk, tr, []⟩

/-- Resource loop, details resolution and compilation (lines 236-411). -/
def handleTail (env : Env) (tc : Cache ParsedTemplate) (rc0 : Cache String)
    (disk : Disk) (req : Req) (tr : List Ev) (t : ParsedTemplate)
    (dts0 : Details) (workDir : String) : HFinal :=
  let lr := resourcesLoop env workDir rc0 disk tr req.qRscs
  match lr.out with
  | .error e => ⟨e, tc, lr.rc, lr.disk, lr.trace, []⟩
  | .ok _ =>
    if dts0 = [] ∧ req.qDtls ≠ "" then
      let dr := resolveDetails env lr.disk req.qDtls
      match dr.out with
      | .error e => ⟨e, tc, lr.rc, dr.disk, lr.trace ++ dr.trace, []⟩
      | .ok dts => compilePhase env tc lr.rc dr.disk (lr.trace ++ dr.trace) t dts workDir
    else compilePhase env tc lr.rc lr.disk lr.trace t dts0 workDir

/-- The handler body after workspace creation (lines 79-411): JSON body,
template by URL identifier when none came inline (400 `no template provided`
when neither did), then resources, details and compilation. -/
def handleCore (env : Env) (tc0 : Cache ParsedTemplate) (rc0 : Cache String)
    (disk0 : Disk) (req : Req) (workDir : String) : HFinal :=
  let b := bodyPhase env tc0 disk0 req workDir
  match b.out with
  | .error e => ⟨e, b.tc, rc0, b.disk, b.trace, []⟩
  | .ok _ =>
    if b.jTmpl = none ∧ req.qTmpl ≠ "" then
      let r := resolveById env b.tc b.disk req.qTmpl b.delims
      match r.out with
      | .error e => ⟨e, r.tc, rc0, r.disk, b.trace ++ r.trace, []⟩
      | .ok t => handleTail env r.tc rc0 r.disk req (b.trace ++ r.trace) t b.details workDir
    else
      match b.jTmpl with
      | none => ⟨⟨400, .text "no template provided"⟩, b.tc, rc0, b.disk, b.trace, []⟩
      | some t => handleTail env b.tc rc0 b.disk req b.trace t b.details workDir

/-- The full request handler (lines 62-412): create the per-request workspace
(500 when that fails), register its deferred recursive removal, and run the
handler body; the removal is scheduled on every exit path that follows the
successful creation. -/
def handleGenerate (env : Env) (tc0 : Cache ParsedTemplate) (rc0 : Cache String)
    (disk0 : Disk) (req : Req) : HFinal :=
  if env.tempDirFails then
    ⟨⟨500, .text "temp dir error"⟩, tc0, rc0, disk0, [], []⟩
  else
    let workDir := joinPath env.rootDir env.tempDirName
    let core := handleCore env tc0 rc0 disk0 req workDir
    { core with cleanup := [workDir] }

/-- The deferred background removal (lines 72-78): `os.RemoveAll` on each
scheduled directory; a failure produces only an error-log line.  The response
has been computed before this runs, so no failure can reach the client. -/
def cleanupRun (removeFails : Bool) (dirs : List String) : List String :=
  if removeFails then dirs.map (fun d => "error removing " ++ d) else []

/-- Number of template-parse events in a trace. -/
def parseCount (tr : List Ev) : Nat :=
  tr.countP (fun e => match e with | .parse _ => true | _ => false)

/-- Whether an HTTP status code is a client error. -/
def isClientError (status : Nat) : Prop := 400 ≤ status ∧ status < 500

/-- A baseline concrete environment for witnesses: everything succeeds and no
remote Store is configured. -/
def envBase : Env where
  rootDir := "/root"
  tempDirName := "work1"
  tempDirFails := false
  db := none
  parseFails := fun _ _ => false
  writeFails := fun _ => false
  statErr := fun _ => false
  symlinkFails := fun _ _ => false
  jsonDetails := fun _ => some []
  compileRun := fun _ _ _ => Except.ok "job.pdf"
  pdfOpenFails := false

/-- An empty cache of capacity 2 (the capacity is positive, as `lru.New`
guarantees). -/
def emptyCache (α : Type) : Cache α := ⟨[], 2⟩

/-- A concrete Store holding exactly the resource `logo.png`. -/
def storeLogo : String → FetchResult := fun k =>
  if k = "logo.png" then .ok [1, 2, 3] else .notFound

/-- Environment with the `logo.png` Store configured. -/
def envStore : Env := { envBase with db := some storeLogo }

/-- A resource-path cache already holding `logo.png`. -/
def rcLogo : Cache String := ⟨[("logo.png", joinPath "/root" "logo.png")], 2⟩

/-- A disk already holding the materialized `logo.png`. -/
def diskLogo : Disk := [(joinPath "/root" "logo.png", [1, 2, 3])]

/-- Environment where writing the materialized `logo.png` to disk fails. -/
def envWriteFail : Env :=
  { envBase with
      db := some storeLogo
      writeFails := fun p => p == joinPath "/root" "logo.png" }

/-- A concrete Store holding exactly the template `welcome` under the
caller-supplied identifier. -/
def storeWelcome : String → FetchResult := fun k =>
  if k = "welcome" then .ok [104, 105] else .notFound

/-- Environment with the `welcome` Store configured. -/
def envStoreW : Env := { envBase with db := some storeWelcome }

/-- A concrete Store holding nothing. -/
def storeEmpty : String → FetchResult := fun _ => .notFound

/-- Environment with an empty Store configured. -/
def envStoreEmpty : Env := { envBase with db := some storeEmpty }

/-- A JSON request whose body fails to decode. -/
def reqMalformed : Req :=
  ⟨true, .malformed "invalid character", "", [], ""⟩

/-- A JSON request with an empty body (`io.EOF`). -/
def reqEmptyBody : Req :=
  ⟨true, .eof, "", [], ""⟩

/-- A JSON request supplying only the left delimiter. -/
def reqOneDelim : Req :=
  ⟨true, .ok ⟨"", [], [], some ⟨"#!", ""⟩⟩, "", [], ""⟩

/-- A non-JSON request with no query parameters at all. -/
def reqPlain : Req :=
  ⟨false, .eof, "", [], ""⟩

/-- A non-JSON request asking for the template identifier `welcome`. -/
def reqTmplWelcome : Req :=
  ⟨false, .eof, "welcome", [], ""⟩

end Latte

namespace Latte

theorem md5Hex_vector_empty : md5Hex (utf8Bytes "") = "d41d8cd98f00b204e9800998ecf8427e" := by
  decide

theorem md5Hex_vector_abc : md5Hex (utf8Bytes "abc") = "900150983cd24fb0d6963f7d28e17f72" := by
  decide

theorem base64_vector : base64Decode "aGk=" = some [104, 105] := by decide

theorem base64_vector_bad : base64Decode "!" = none := by decide

theorem lookup_filter_key_ne {α : Type} (l : List (String × α)) (k k2 : String)
    (h : k2 ≠ k) : (l.filter (fun e => e.fst != k)).lookup k2 = l.lookup k2 := by
  induction l with
  | nil => rfl
  | cons a tl ih =>
    by_cases ha : a.fst = k
    · have hb : (a.fst != k) = false := by simp [ha]
      have hk2 : (k2 == a.fst) = false := by simp [ha]; exact h
      simp [List.filter_cons, hb, List.lookup, hk2, ih]
    · have hb : (a.fst != k) = true := by simp [ha]
      by_cases h2 : k2 = a.fst
      · simp [List.filter_cons, hb, List.lookup, h2]
      · have hk2 : (k2 == a.fst) = false := by simp [h2]
        simp [List.filter_cons, hb, List.lookup, hk2, ih]

theorem Cache.get_fst {α : Type} (c : Cache α) (k : String) :
    (c.get k).fst = c.find k := by
  unfold Cache.get Cache.find
  cases h : c.entries.lookup k <;> simp [h]

theorem Cache.get_snd_cap {α : Type} (c : Cache α) (k : String) :
    ((c.get k).snd).cap = c.cap := by
  unfold Cache.get
  cases h : c.entries.lookup k <;> simp [h]

theorem Cache.get_snd_find {α : Type} (c : Cache α) (k k2 : String) :
    ((c.get k).snd).find k2 = c.find k2 := by
  unfold Cache.get Cache.find
  cases h : c.entries.lookup k with
  | none => simp [h]
  | some v =>
    by_cases hk : k2 = k
    · subst hk
      simp [h, List.lookup]
    · have hk2 : (k2 == k) = false := by simp [hk]
      simp [h, List.lookup, hk2, lookup_filter_key_ne _ _ _ hk]

theorem Cache.find_add_self {α : Type} (c : Cache α) (k : String) (v : α)
    (h : 1 ≤ c.cap) : (c.add k v).find k = some v := by
  unfold Cache.add Cache.find
  cases hc : c.cap with
  | zero => omega
  | succ n => simp [List.take_succ_cons, List.lookup]

/-- C2 counterexample: the delimiter pairs `("a", "bc")` and `("ab", "c")` are
distinct, yet for the same template content they produce the same cache key,
because the key concatenates the hash with the two delimiter strings without
a separator. -/
theorem C2_counterexample :
    (⟨"a", "bc"⟩ : Delims) ≠ ⟨"ab", "c"⟩ ∧
      cacheKey (utf8Bytes "dGVzdA==") ⟨"a", "bc"⟩ =
        cacheKey (utf8Bytes "dGVzdA==") ⟨"ab", "c"⟩ := by
  refine ⟨by decide, ?_⟩
  show md5Hex (utf8Bytes "dGVzdA==") ++ "a" ++ "bc"
      = md5Hex (utf8Bytes "dGVzdA==") ++ "ab" ++ "c"
  rw [String.append_assoc, String.append_assoc]
  congr 1

/-- C2 (amended): for one template content, two delimiter pairs receive
distinct cache keys exactly when their concatenations `left ++ right` differ;
the hash prefix has fixed content for fixed content, so the keys coincide
only when the concatenated delimiter suffixes coincide. -/
theorem C2_keys_differ (c : Bytes) (d1 d2 : Delims)
    (h : d1.left ++ d1.right ≠ d2.left ++ d2.right) :
    cacheKey c d1 ≠ cacheKey c d2 := by
  intro heq
  apply h
  have h2 : (md5Hex c).data ++ (d1.left.data ++ d1.right.data)
      = (md5Hex c).data ++ (d2.left.data ++ d2.right.data) := by
    have h0 := congrArg String.data heq
    simpa [cacheKey, String.data_append, List.append_assoc] using h0
  have h3 := List.append_cancel_left h2
  have h4 : (d1.left ++ d1.right).data = (d2.left ++ d2.right).data := by
    simpa [String.data_append] using h3
  exact congrArg String.mk h4

/-- C2 witness: the default delimiters and a pair with a different
concatenation give different keys. -/
theorem C2_keys_differ_witness :
    ("#!" : String) ++ "!#" ≠ "<<" ++ ">>" ∧
      cacheKey (utf8Bytes "dGVzdA==") ⟨"#!", "!#"⟩ ≠
        cacheKey (utf8Bytes "dGVzdA==") ⟨"<<", ">>"⟩ :=
  ⟨by decide, C2_keys_differ (utf8Bytes "dGVzdA==") ⟨"#!", "!#"⟩ ⟨"<<", ">>"⟩ (by decide)⟩

theorem resolveInline_ok_find (env : Env) (tc : Cache ParsedTemplate)
    (s : String) (d : Delims) (t : ParsedTemplate)
    (hcap : 1 ≤ tc.cap)
    (h1 : (resolveInline env tc s d).out = .ok t) :
    ((resolveInline env tc s d).tc).find (cacheKey (utf8Bytes s) d) = some t := by
  unfold resolveInline at h1 ⊢
  cases hfst : (tc.get (cacheKey (utf8Bytes s) d)).fst with
  | some t0 =>
    simp only [hfst] at h1 ⊢
    simp at h1
    rw [Cache.get_snd_find, ← Cache.get_fst, hfst, h1]
  | none =>
    cases hdec : base64Decode s with
    | none => simp [hfst, hdec] at h1
    | some bs =>
      cases hpf : env.parseFails bs d with
      | true => simp [hfst, hdec, hpf] at h1
      | false =>
        simp only [hfst, hdec, hpf] at h1 ⊢
        simp at h1 ⊢
        rw [← h1]
        exact Cache.find_add_self _ _ _ (by rw [Cache.get_snd_cap]; exact hcap)

/-- C4: resolving the same template content under the same delimiter pair a
second time, with the entry still cached, returns the identical cached parsed
template value and performs no parse. -/
theorem C4_second_resolve_cached (env : Env) (tc : Cache ParsedTemplate)
    (s : String) (d : Delims) (t : ParsedTemplate)
    (hcap : 1 ≤ tc.cap)
    (h1 : (resolveInline env tc s d).out = .ok t) :
    (resolveInline env ((resolveInline env tc s d).tc) s d).out = .ok t ∧
      parseCount (resolveInline env ((resolveInline env tc s d).tc) s d).trace = 0 := by
  have hfind := resolveInline_ok_find env tc s d t hcap h1
  generalize hg : (resolveInline env tc s d).tc = tc1 at hfind ⊢
  have hfst : (tc1.get (cacheKey (utf8Bytes s) d)).fst = some t := by
    rw [Cache.get_fst]; exact hfind
  unfold resolveInline
  simp [hfst, parseCount]

/-- C4 witness: a concrete inline template resolved twice from an empty cache. -/
theorem C4_second_resolve_cached_witness :
    1 ≤ (emptyCache ParsedTemplate).cap ∧
      (resolveInline envBase (emptyCache ParsedTemplate) "aGk=" defaultDelims).out =
        .ok ⟨cacheKey (utf8Bytes "aGk=") defaultDelims, [104, 105], defaultDelims⟩ ∧
      ((resolveInline envBase
          ((resolveInline envBase (emptyCache ParsedTemplate) "aGk=" defaultDelims).tc)
          "aGk=" defaultDelims).out =
        .ok ⟨cacheKey (utf8Bytes "aGk=") defaultDelims, [104, 105], defaultDelims⟩ ∧
       parseCount (resolveInline envBase
          ((resolveInline envBase (emptyCache ParsedTemplate) "aGk=" defaultDelims).tc)
          "aGk=" defaultDelims).trace = 0) :=
  ⟨by decide, by rfl,
    C4_second_resolve_cached envBase (emptyCache ParsedTemplate) "aGk=" defaultDelims
      ⟨cacheKey (utf8Bytes "aGk=") defaultDelims, [104, 105], defaultDelims⟩
      (by decide) (by rfl)⟩

/-- C1 (observed code bug): the resource `logo.png` is present in the
resource-path cache and materialized on disk, yet the handler still fetches
it from the Store, because `os.Stat` is applied to the still-empty candidate
path (line 241) and its not-exist result forces the download branch even on a
cache hit; with no Store configured the same request is refused 400 despite
the cache and disk holding the resource. -/
theorem C1_cached_resource_still_fetched :
    rcLogo.find "logo.png" = some (joinPath "/root" "logo.png") ∧
      diskContains diskLogo (joinPath "/root" "logo.png") = true ∧
      ((resolveResource envStore rcLogo diskLogo (joinPath "/root" "work1")
          "logo.png").trace.contains (Ev.fetch "logo.png")) = true ∧
      (resolveResource envBase rcLogo diskLogo (joinPath "/root" "work1")
          "logo.png").out =
        .error ⟨400, .text "resource with id logo.png not found"⟩ := by
  refine ⟨by decide, by decide, by decide, by decide⟩

/-- C10 (code bug): on the path where persisting a freshly fetched resource
to local disk fails, line 267 releases the template cache's mutex instead of
the resource cache's: the trace acquires `rscs` and never releases it, and
releases `tmpls` without ever having acquired it. -/
theorem C10_wrong_mutex_on_write_failure :
    (resolveResource envWriteFail (emptyCache String) [] (joinPath "/root" "work1")
        "logo.png").trace =
      [.lock .rscs, .stat "", .fetch "logo.png", .unlock .tmpls] ∧
      (resolveResource envWriteFail (emptyCache String) [] (joinPath "/root" "work1")
          "logo.png").trace.count (Ev.unlock .rscs) = 0 ∧
      (resolveResource envWriteFail (emptyCache String) [] (joinPath "/root" "work1")
          "logo.png").trace.count (Ev.lock .tmpls) = 0 ∧
      (resolveResource envWriteFail (emptyCache String) [] (joinPath "/root" "work1")
          "logo.png").out = .error ⟨500, .text "disk write error"⟩ := by
  refine ⟨by decide, by decide, by decide, by decide⟩

theorem diskRead_write_ne (d : Disk) (p q : String) (bs : Bytes) (h : q ≠ p) :
    diskRead (diskWrite d p bs) q = diskRead d q := by
  unfold diskRead diskWrite
  have hq : (q == p) = false := by simp [h]
  simp [List.lookup, hq]
  exact lookup_filter_key_ne d p q h

/-- C5 counterexample: the Store holds the template under the caller-supplied
identifier `welcome`, yet by-identifier resolution queries the Store and the
disk with `welcome#!!#` (the identifier with the delimiter pair appended,
line 161) and therefore fails to find it. -/
theorem C5_counterexample :
    (resolveById envStoreW (emptyCache ParsedTemplate) [] "welcome" defaultDelims).trace =
      [.lock .tmpls, .stat (joinPath "/root" "welcome#!!#"), .fetch "welcome#!!#",
        .unlock .tmpls] ∧
      ("welcome#!!#" : String) ≠ "welcome" ∧
      storeWelcome "welcome" = .ok [104, 105] ∧
      (resolveById envStoreW (emptyCache ParsedTemplate) [] "welcome" defaultDelims).out =
        .error ⟨500, .text "template with id welcome#!!# not found"⟩ := by
  refine ⟨by decide, by decide, by decide, by decide⟩

/-- C5 (amended): in by-identifier template resolution, every Store query and
every disk stat uses the caller-supplied identifier with the delimiter pair
appended, and the only disk path it can write is that suffixed name under the
root directory — never the bare identifier. -/
theorem C5_suffixed_identifier (env : Env) (tc : Cache ParsedTemplate) (disk : Disk)
    (rawId : String) (d : Delims) :
    (∀ k, Ev.fetch k ∈ (resolveById env tc disk rawId d).trace →
        k = rawId ++ d.left ++ d.right) ∧
      (∀ p, Ev.stat p ∈ (resolveById env tc disk rawId d).trace →
        p = joinPath env.rootDir (rawId ++ d.left ++ d.right)) ∧
      (∀ p, diskRead ((resolveById env tc disk rawId d).disk) p ≠ diskRead disk p →
        p = joinPath env.rootDir (rawId ++ d.left ++ d.right)) := by
  unfold resolveById
  cases hfst : (tc.get (rawId ++ d.left ++ d.right)).fst with
  | some t => simp [hfst]
  | none =>
    cases hstat : osStat env disk (joinPath env.rootDir (rawId ++ d.left ++ d.right)) with
    | notExist =>
      cases hdb : env.db with
      | none => simp [hfst, hstat, hdb]
      | some fetch =>
        cases hf : fetch (rawId ++ d.left ++ d.right) with
        | notFound => simp [hfst, hstat, hdb, hf]
        | err m => simp [hfst, hstat, hdb, hf]
        | ok raw =>
          cases hw : env.writeFails (joinPath env.rootDir (rawId ++ d.left ++ d.right)) with
          | true => simp [hfst, hstat, hdb, hf, hw]
          | false =>
            unfold readParseAdd
            cases hr : diskRead (diskWrite disk
                (joinPath env.rootDir (rawId ++ d.left ++ d.right)) raw)
                (joinPath env.rootDir (rawId ++ d.left ++ d.right)) with
            | none =>
              simp [hfst, hstat, hdb, hf, hw, hr]
              intro p hp
              by_contra hne
              exact hp (diskRead_write_ne disk _ p raw hne)
            | some tBytes =>
              cases hpf : env.parseFails tBytes d with
              | true =>
                simp [hfst, hstat, hdb, hf, hw, hr, hpf]
                intro p hp
                by_contra hne
                exact hp (diskRead_write_ne disk _ p raw hne)
              | false =>
                simp [hfst, hstat, hdb, hf, hw, hr, hpf]
                intro p hp
                by_contra hne
                exact hp (diskRead_write_ne disk _ p raw hne)
    | errOther => simp [hfst, hstat]
    | found =>
      unfold readParseAdd
      cases hr : diskRead disk (joinPath env.rootDir (rawId ++ d.left ++ d.right)) with
      | none => simp [hfst, hstat, hr]
      | some tBytes =>
        cases hpf : env.parseFails tBytes d with
        | true => simp [hfst, hstat, hr, hpf]
        | false => simp [hfst, hstat, hr, hpf]

/-- C5 witness: the concrete run queries the Store with the suffixed key, and
that key is the identifier with both delimiters appended. -/
theorem C5_suffixed_identifier_witness :
    (Ev.fetch "welcome#!!#" ∈
        (resolveById envStoreW (emptyCache ParsedTemplate) [] "welcome" defaultDelims).trace) ∧
      "welcome#!!#" = "welcome" ++ "#!" ++ "!#" :=
  ⟨by decide,
    (C5_suffixed_identifier envStoreW (emptyCache ParsedTemplate) [] "welcome"
        defaultDelims).1 "welcome#!!#" (by decide)⟩

/-- C6 counterexample: a malformed JSON body is answered with HTTP 500
(line 91 uses `http.StatusInternalServerError`), not a client error. -/
theorem C6_counterexample :
    (handleGenerate envBase (emptyCache ParsedTemplate) (emptyCache String) []
        reqMalformed).resp = ⟨500, .text "invalid character"⟩ ∧
      ¬ isClientError 500 := by
  refine ⟨by decide, by simp [isClientError]⟩

/-- C6 (amended): every decode failure in the request — a malformed JSON
body, a malformed base64 template (on a cache miss), or a malformed base64
resource value — is reported with HTTP 500, a server error; only the empty
JSON body is answered 400. -/
theorem C6_decode_errors_are_500 :
    (∀ (env : Env) (tc : Cache ParsedTemplate) (rc : Cache String) (disk : Disk)
        (req : Req) (m : String),
        env.tempDirFails = false → req.contentTypeJson = true →
        req.reqBody = .malformed m →
        (handleGenerate env tc rc disk req).resp = ⟨500, .text m⟩) ∧
      (∀ (env : Env) (tc : Cache ParsedTemplate) (s : String) (d : Delims),
        base64Decode s = none →
        tc.find (cacheKey (utf8Bytes s) d) = none →
        (resolveInline env tc s d).out = .error ⟨500, .text "illegal base64 data"⟩) ∧
      (∀ (env : Env) (workDir : String) (disk : Disk) (name data : String)
        (rest : List (String × String)),
        base64Decode data = none →
        writeBodyResources env workDir disk ((name, data) :: rest) =
          .error ⟨500, .text "illegal base64 data"⟩) ∧
      (∀ (env : Env) (tc : Cache ParsedTemplate) (rc : Cache String) (disk : Disk)
        (req : Req),
        env.tempDirFails = false → req.contentTypeJson = true →
        req.reqBody = .eof →
        (handleGenerate env tc rc disk req).resp =
          ⟨400, .text "request header Content-Type set to application/json; received empty body"⟩) := by
  refine ⟨?_, ?_, ?_, ?_⟩
  · intro env tc rc disk req m ht hc hb
    unfold handleGenerate handleCore bodyPhase
    simp [ht, hc, hb]
  · intro env tc s d hdec hfind
    have hfst : (tc.get (cacheKey (utf8Bytes s) d)).fst = none := by
      rw [Cache.get_fst]; exact hfind
    unfold resolveInline
    simp [hfst, hdec]
  · intro env workDir disk name data rest hdec
    unfold writeBodyResources
    simp [hdec]
  · intro env tc rc disk req ht hc hb
    unfold handleGenerate handleCore bodyPhase
    simp [ht, hc, hb]

/-- C6 witness: the four decode-failure shapes at concrete inputs. -/
theorem C6_decode_errors_are_500_witness :
    ((handleGenerate envBase (emptyCache ParsedTemplate) (emptyCache String) []
        reqMalformed).resp = ⟨500, .text "invalid character"⟩) ∧
      ((resolveInline envBase (emptyCache ParsedTemplate) "!" defaultDelims).out =
        .error ⟨500, .text "illegal base64 data"⟩) ∧
      (writeBodyResources envBase (joinPath "/root" "work1") [] [("a.png", "!")] =
        .error ⟨500, .text "illegal base64 data"⟩) ∧
      ((handleGenerate envBase (emptyCache ParsedTemplate) (emptyCache String) []
        reqEmptyBody).resp =
        ⟨400, .text "request header Content-Type set to application/json; received empty body"⟩) :=
  ⟨C6_decode_errors_are_500.1 envBase (emptyCache ParsedTemplate) (emptyCache String) []
      reqMalformed "invalid character" (by rfl) (by rfl) (by rfl),
    C6_decode_errors_are_500.2.1 envBase (emptyCache ParsedTemplate) "!" defaultDelims
      (by decide) (by rfl),
    C6_decode_errors_are_500.2.2.1 envBase (joinPath "/root" "work1") [] "a.png" "!" []
      (by decide),
    C6_decode_errors_are_500.2.2.2 envBase (emptyCache ParsedTemplate) (emptyCache String) []
      reqEmptyBody (by rfl) (by rfl) (by rfl)⟩

/-- C7: a decoded JSON request supplying exactly one side of the delimiter
pair is answered 400 with the exact message of line 98, and a request that
carries no inline template and no `tmpl` query parameter is answered 400
`no template provided`. -/
theorem C7_bad_request_responses :
    (∀ (env : Env) (tc : Cache ParsedTemplate) (rc : Cache String) (disk : Disk)
        (req : Req) (rb : ReqBody) (dl : Delims),
        env.tempDirFails = false → req.contentTypeJson = true →
        req.reqBody = .ok rb → rb.delims = some dl →
        ((dl.left = "" ∧ dl.right ≠ "") ∨ (dl.left ≠ "" ∧ dl.right = "")) →
        (handleGenerate env tc rc disk req).resp =
          ⟨400, .text "only received one delimiter; need none or both"⟩) ∧
      (∀ (env : Env) (tc : Cache ParsedTemplate) (rc : Cache String) (disk : Disk)
        (req : Req),
        env.tempDirFails = false → req.contentTypeJson = false → req.qTmpl = "" →
        (handleGenerate env tc rc disk req).resp =
          ⟨400, .text "no template provided"⟩) := by
  constructor
  · intro env tc rc disk req rb dl ht hc hb hd hone
    have hor : dl.left = "" ∨ dl.right = "" := by
      rcases hone with ⟨h1, _⟩ | ⟨_, h2⟩
      · exact Or.inl h1
      · exact Or.inr h2
    unfold handleGenerate handleCore bodyPhase
    simp [ht, hc, hb, hd, hor]
  · intro env tc rc disk req ht hc hq
    unfold handleGenerate handleCore bodyPhase
    simp [ht, hc, hq]

/-- C7 witness: a request with only one delimiter supplied, and a bare
non-JSON request with no `tmpl` parameter. -/
theorem C7_bad_request_responses_witness :
    ((handleGenerate envBase (emptyCache ParsedTemplate) (emptyCache String) []
        reqOneDelim).resp = ⟨400, .text "only received one delimiter; need none or both"⟩) ∧
      ((handleGenerate envBase (emptyCache ParsedTemplate) (emptyCache String) []
        reqPlain).resp = ⟨400, .text "no template provided"⟩) :=
  ⟨C7_bad_request_responses.1 envBase (emptyCache ParsedTemplate) (emptyCache String) []
      reqOneDelim ⟨"", [], [], some ⟨"#!", ""⟩⟩ ⟨"#!", ""⟩ (by rfl) (by rfl) (by rfl)
      (by rfl) (Or.inr ⟨by decide, by rfl⟩),
    C7_bad_request_responses.2 envBase (emptyCache ParsedTemplate) (emptyCache String) []
      reqPlain (by rfl) (by rfl) (by rfl)⟩

/-- C3 counterexample: the `welcome` template is absent from disk and the
configured Store reports not-found, yet the handler answers HTTP 500
(line 182), which is not a client error. -/
theorem C3_counterexample :
    (handleGenerate envStoreEmpty (emptyCache ParsedTemplate) (emptyCache String) []
        reqTmplWelcome).resp = ⟨500, .text "template with id welcome#!!# not found"⟩ ∧
      ¬ isClientError 500 := by
  refine ⟨by decide, by simp [isClientError]⟩

/-- C3 (amended): an identifier absent from disk with no Store configured is
answered 400 for templates and resources; but a Store not-found signal is
answered 500 for templates and resources, and the details path answers 500 in
both its not-found cases (no Store configured, and Store not-found). -/
theorem C3_not_found_statuses :
    (∀ (env : Env) (tc : Cache ParsedTemplate) (disk : Disk) (rawId : String) (d : Delims),
        env.db = none →
        (tc.get (rawId ++ d.left ++ d.right)).fst = none →
        osStat env disk (joinPath env.rootDir (rawId ++ d.left ++ d.right)) = .notExist →
        (resolveById env tc disk rawId d).out =
          .error ⟨400, .text ("template with id " ++ (rawId ++ d.left ++ d.right) ++ " not found")⟩) ∧
      (∀ (env : Env) (tc : Cache ParsedTemplate) (disk : Disk) (rawId : String)
        (d : Delims) (fetch : String → FetchResult),
        env.db = some fetch →
        (tc.get (rawId ++ d.left ++ d.right)).fst = none →
        osStat env disk (joinPath env.rootDir (rawId ++ d.left ++ d.right)) = .notExist →
        fetch (rawId ++ d.left ++ d.right) = .notFound →
        (resolveById env tc disk rawId d).out =
          .error ⟨500, .text ("template with id " ++ (rawId ++ d.left ++ d.right) ++ " not found")⟩) ∧
      (∀ (env : Env) (rc : Cache String) (disk : Disk) (workDir rscID : String),
        env.db = none →
        (resolveResource env rc disk workDir rscID).out =
          .error ⟨400, .text ("resource with id " ++ rscID ++ " not found")⟩) ∧
      (∀ (env : Env) (rc : Cache String) (disk : Disk) (workDir rscID : String)
        (fetch : String → FetchResult),
        env.db = some fetch → fetch rscID = .notFound →
        (resolveResource env rc disk workDir rscID).out =
          .error ⟨500, .text ("resource with id " ++ rscID ++ " not found")⟩) ∧
      (∀ (env : Env) (disk : Disk) (dtID : String),
        env.db = none → osStat env disk (joinPath env.rootDir dtID) = .notExist →
        (resolveDetails env disk dtID).out =
          .error ⟨500, .jsonErr ("details json with id " ++ dtID ++ " not found") ""⟩) ∧
      (∀ (env : Env) (disk : Disk) (dtID : String) (fetch : String → FetchResult),
        env.db = some fetch → osStat env disk (joinPath env.rootDir dtID) = .notExist →
        fetch dtID = .notFound →
        (resolveDetails env disk dtID).out =
          .error ⟨500, .jsonErr ("details json with id " ++ dtID ++ " not found") ""⟩) := by
  have hstat0 : ∀ (env : Env) (disk : Disk), osStat env disk "" = .notExist := by
    intro env disk
    unfold osStat
    simp
  refine ⟨?_, ?_, ?_, ?_, ?_, ?_⟩
  · intro env tc disk rawId d hdb hfst hstat
    unfold resolveById
    simp [hdb, hfst, hstat]
  · intro env tc disk rawId d fetch hdb hfst hstat hf
    unfold resolveById
    simp [hdb, hfst, hstat, hf]
  · intro env rc disk workDir rscID hdb
    unfold resolveResource
    simp [hdb, hstat0, StatRes.isNotExist]
  · intro env rc disk workDir rscID fetch hdb hf
    unfold resolveResource
    simp [hdb, hstat0, StatRes.isNotExist, hf]
  · intro env disk dtID hdb hstat
    unfold resolveDetails
    simp [hdb, hstat]
  · intro env disk dtID fetch hdb hstat hf
    unfold resolveDetails
    simp [hdb, hstat, hf]

/-- C3 witness: the six not-found shapes at concrete inputs. -/
theorem C3_not_found_statuses_witness :
    ((resolveById envBase (emptyCache ParsedTemplate) [] "welcome" defaultDelims).out =
        .error ⟨400, .text ("template with id " ++ ("welcome" ++ "#!" ++ "!#") ++ " not found")⟩) ∧
      ((resolveById envStoreEmpty (emptyCache ParsedTemplate) [] "welcome" defaultDelims).out =
        .error ⟨500, .text ("template with id " ++ ("welcome" ++ "#!" ++ "!#") ++ " not found")⟩) ∧
      ((resolveResource envBase (emptyCache String) [] (joinPath "/root" "work1") "logo2.png").out =
        .error ⟨400, .text ("resource with id " ++ "logo2.png" ++ " not found")⟩) ∧
      ((resolveResource envStoreEmpty (emptyCache String) [] (joinPath "/root" "work1") "logo2.png").out =
        .error ⟨500, .text ("resource with id " ++ "logo2.png" ++ " not found")⟩) ∧
      ((resolveDetails envBase [] "data1").out =
        .error ⟨500, .jsonErr ("details json with id " ++ "data1" ++ " not found") ""⟩) ∧
      ((resolveDetails envStoreEmpty [] "data1").out =
        .error ⟨500, .jsonErr ("details json with id " ++ "data1" ++ " not found") ""⟩) :=
  ⟨C3_not_found_statuses.1 envBase (emptyCache ParsedTemplate) [] "welcome" defaultDelims
      (by rfl) (by rfl) (by decide),
    C3_not_found_statuses.2.1 envStoreEmpty (emptyCache ParsedTemplate) [] "welcome"
      defaultDelims storeEmpty (by rfl) (by rfl) (by decide) (by rfl),
    C3_not_found_statuses.2.2.1 envBase (emptyCache String) [] (joinPath "/root" "work1")
      "logo2.png" (by rfl),
    C3_not_found_statuses.2.2.2.1 envStoreEmpty (emptyCache String) []
      (joinPath "/root" "work1") "logo2.png" storeEmpty (by rfl) (by rfl),
    C3_not_found_statuses.2.2.2.2.1 envBase [] "data1" (by rfl) (by decide),
    C3_not_found_statuses.2.2.2.2.2 envStoreEmpty [] "data1" storeEmpty (by rfl)
      (by decide) (by rfl)⟩

theorem Cache.get_fst_none_snd {α : Type} (c : Cache α) (k : String)
    (h : (c.get k).fst = none) : (c.get k).snd = c := by
  unfold Cache.get at h ⊢
  cases hl : c.entries.lookup k with
  | none => simp [hl]
  | some v => simp [hl] at h

theorem osStat_empty (env : Env) (disk : Disk) : osStat env disk "" = .notExist := by
  unfold osStat
  simp

/-- C8: when inline-template, by-identifier-template or resource resolution
returns an error of the kinds the claim names (not-found, Store fetch error,
disk-write error, parse error — every error of those resolutions except the
resource symlink failure, which happens after a successful insertion), no new
entry has been inserted: the template cache is returned unchanged and the
resource-path cache maps every key exactly as before. -/
theorem C8_no_insert_on_error :
    (∀ (env : Env) (tc : Cache ParsedTemplate) (s : String) (d : Delims) (e : Response),
        (resolveInline env tc s d).out = .error e →
        (resolveInline env tc s d).tc = tc) ∧
      (∀ (env : Env) (tc : Cache ParsedTemplate) (disk : Disk) (rawId : String)
        (d : Delims) (e : Response),
        (resolveById env tc disk rawId d).out = .error e →
        (resolveById env tc disk rawId d).tc = tc) ∧
      (∀ (env : Env) (rc : Cache String) (disk : Disk) (workDir rscID : String)
        (e : Response),
        (resolveResource env rc disk workDir rscID).out = .error e →
        e ≠ ⟨500, .text "symlink error"⟩ →
        ∀ k, (resolveResource env rc disk workDir rscID).rc.find k = rc.find k) := by
  refine ⟨?_, ?_, ?_⟩
  · intro env tc s d e h
    unfold resolveInline at h ⊢
    cases hfst : (tc.get (cacheKey (utf8Bytes s) d)).fst with
    | some t => simp [hfst] at h
    | none =>
      have hsnd := Cache.get_fst_none_snd tc (cacheKey (utf8Bytes s) d) hfst
      cases hdec : base64Decode s with
      | none => simp [hfst, hdec, hsnd]
      | some bs =>
        cases hpf : env.parseFails bs d with
        | true => simp [hfst, hdec, hpf, hsnd]
        | false => simp [hfst, hdec, hpf] at h
  · intro env tc disk rawId d e h
    unfold resolveById at h ⊢
    cases hfst : (tc.get (rawId ++ d.left ++ d.right)).fst with
    | some t => simp [hfst] at h
    | none =>
      have hsnd := Cache.get_fst_none_snd tc (rawId ++ d.left ++ d.right) hfst
      cases hstat : osStat env disk (joinPath env.rootDir (rawId ++ d.left ++ d.right)) with
      | notExist =>
        cases hdb : env.db with
        | none => simp [hfst, hstat, hdb, hsnd]
        | some fetch =>
          cases hf : fetch (rawId ++ d.left ++ d.right) with
          | notFound => simp [hfst, hstat, hdb, hf, hsnd]
          | err m => simp [hfst, hstat, hdb, hf, hsnd]
          | ok raw =>
            cases hw : env.writeFails (joinPath env.rootDir (rawId ++ d.left ++ d.right)) with
            | true => simp [hfst, hstat, hdb, hf, hw, hsnd]
            | false =>
              unfold readParseAdd at h ⊢
              cases hr : diskRead (diskWrite disk
                  (joinPath env.rootDir (rawId ++ d.left ++ d.right)) raw)
                  (joinPath env.rootDir (rawId ++ d.left ++ d.right)) with
              | none => simp [hfst, hstat, hdb, hf, hw, hr, hsnd]
              | some tBytes =>
                cases hpf : env.parseFails tBytes d with
                | true => simp [hfst, hstat, hdb, hf, hw, hr, hpf, hsnd]
                | false => simp [hfst, hstat, hdb, hf, hw, hr, hpf] at h
      | errOther => simp [hfst, hstat, hsnd]
      | found =>
        unfold readParseAdd at h ⊢
        cases hr : diskRead disk (joinPath env.rootDir (rawId ++ d.left ++ d.right)) with
        | none => simp [hfst, hstat, hr, hsnd]
        | some tBytes =>
          cases hpf : env.parseFails tBytes d with
          | true => simp [hfst, hstat, hr, hpf, hsnd]
          | false => simp [hfst, hstat, hr, hpf] at h
  · intro env rc disk workDir rscID e h hne k
    unfold resolveResource at h ⊢
    cases hdb : env.db with
    | none => simp [hdb, osStat_empty, StatRes.isNotExist, Cache.get_snd_find]
    | some fetch =>
      cases hf : fetch rscID with
      | notFound => simp [hdb, hf, osStat_empty, StatRes.isNotExist, Cache.get_snd_find]
      | err m => simp [hdb, hf, osStat_empty, StatRes.isNotExist, Cache.get_snd_find]
      | ok raw =>
        cases hw : env.writeFails (joinPath env.rootDir rscID) with
        | true => simp [hdb, hf, hw, osStat_empty, StatRes.isNotExist, Cache.get_snd_find]
        | false =>
          unfold symlinkStep at h
          simp [hdb, hf, hw, osStat_empty, StatRes.isNotExist] at h
          cases hsl : env.symlinkFails (joinPath env.rootDir rscID) (joinPath workDir rscID) with
          | true =>
            rw [hsl] at h
            simp at h
            exact absurd h.symm hne
          | false =>
            rw [hsl] at h
            simp at h

/-- C8 witness: a failing inline decode, a failing by-identifier lookup and a
failing resource lookup leave their caches as they were. -/
theorem C8_no_insert_on_error_witness :
    ((resolveInline envBase (emptyCache ParsedTemplate) "!" defaultDelims).tc =
        emptyCache ParsedTemplate) ∧
      ((resolveById envBase (emptyCache ParsedTemplate) [] "welcome" defaultDelims).tc =
        emptyCache ParsedTemplate) ∧
      ((resolveResource envBase rcLogo diskLogo (joinPath "/root" "work1")
          "logo.png").rc.find "logo.png" = rcLogo.find "logo.png") :=
  ⟨C8_no_insert_on_error.1 envBase (emptyCache ParsedTemplate) "!" defaultDelims
      ⟨500, .text "illegal base64 data"⟩ (by rfl),
    C8_no_insert_on_error.2.1 envBase (emptyCache ParsedTemplate) [] "welcome" defaultDelims
      ⟨400, .text ("template with id " ++ ("welcome" ++ "#!" ++ "!#") ++ " not found")⟩
      (by decide),
    C8_no_insert_on_error.2.2 envBase rcLogo diskLogo (joinPath "/root" "work1") "logo.png"
      ⟨400, .text ("resource with id " ++ "logo.png" ++ " not found")⟩ (by decide)
      (by decide) "logo.png"⟩

/-- C9: whenever workspace creation succeeds, exactly that workspace
directory is scheduled for recursive removal after the response, on success
and on every error path alike (the removal is attached once, right after
creation, and applies to every exit of the remaining handler body); a removal
failure produces only an error-log line and never reaches the response. -/
theorem C9_workspace_cleanup (env : Env) (tc : Cache ParsedTemplate) (rc : Cache String)
    (disk : Disk) (req : Req) (h : env.tempDirFails = false) :
    (handleGenerate env tc rc disk req).cleanup = [joinPath env.rootDir env.tempDirName] ∧
      cleanupRun true (handleGenerate env tc rc disk req).cleanup =
        ["error removing " ++ joinPath env.rootDir env.tempDirName] ∧
      cleanupRun false (handleGenerate env tc rc disk req).cleanup = [] := by
  unfold handleGenerate
  simp [h, cleanupRun]

/-- C9 witness: the cleanup schedule of a concrete failing request (no
template resolvable) still contains exactly the workspace directory. -/
theorem C9_workspace_cleanup_witness :
    (handleGenerate envBase (emptyCache ParsedTemplate) (emptyCache String) []
        reqPlain).cleanup = [joinPath "/root" "work1"] ∧
      cleanupRun true (handleGenerate envBase (emptyCache ParsedTemplate) (emptyCache String) []
        reqPlain).cleanup = ["error removing " ++ joinPath "/root" "work1"] ∧
      cleanupRun false (handleGenerate envBase (emptyCache ParsedTemplate) (emptyCache String) []
        reqPlain).cleanup = [] :=
  C9_workspace_cleanup envBase (emptyCache ParsedTemplate) (emptyCache String) [] reqPlain
    (by rfl)

end Latte
